import Mathlib

/-!
Shallow embedding of `src/plot_helpers.py` (matplotlib helper functions for
plotting vectors, lines and planes) and verification of its specification.

Modelling conventions:
* Python floats are modelled as exact rationals `ℚ`; `float(x)` is the identity.
* The matplotlib "current axes" is a record of its artist children, the
  equal-aspect flag and the per-axis limits; `plt.gca` always yields this one
  axes, matching the notebooks' single-canvas usage the spec describes.
* `print(...)` is modelled by appending the printed string to a message log.
* The divisions in `plot_line` and `plot_plane` divide a NumPy sample array
  by a Python scalar.  NumPy never raises there: with a zero divisor it emits
  a `RuntimeWarning` (to stderr, not `print`) and yields non-finite floats,
  and the call completes and still plots.  Exact rationals have no non-finite
  values, so the embedding uses Lean's total `ℚ` division (which returns 0 at
  a zero divisor); no theorem below relies on the sample values computed on a
  zero-divisor input, only on the call completing and on the shape of the
  artifacts it adds.
* Python list indexing `xs[i]` is modelled by `List.getD xs i 0`; all verified
  statements only reach in-range indices.
-/

/-- An artist added to the axes.  `Arrow2D`/`Arrow3D` store the endpoint data
the Python classes keep in `_verts2d` / `_verts3d` (two points per axis),
matplotlib's `ax.plot` polylines store the sampled points, and
`ax.plot_surface` stores the meshgrid matrices `X`, `Y`, `Z` with the color
and alpha it was called with. -/
inductive Artist where
  | arrow2D (x0 x1 y0 y1 : ℚ) (color : String)
  | arrow3D (x0 x1 y0 y1 z0 z1 : ℚ) (color : String)
  | line2D (pts : List (ℚ × ℚ)) (color : Option String)
  | line3D (pts : List (ℚ × ℚ × ℚ)) (color : Option String)
  | surface3D (X Y Z : List (List ℚ)) (color : String) (alpha : ℚ)
  deriving DecidableEq, Repr

/-- The current matplotlib axes: artist children, the equal-aspect flag set by
`ax.set_aspect("equal")`, and the limits set by `set_xlim`/`set_ylim`/`set_zlim`
(`none` while untouched). -/
structure Axes where
  children : List Artist
  aspectEqual : Bool
  xlim : Option (ℚ × ℚ)
  ylim : Option (ℚ × ℚ)
  zlim : Option (ℚ × ℚ)
  deriving DecidableEq, Repr

/-- Process-wide state: the current axes, the `PlaneColorPicker.instance`
singleton (`none` before first construction, `some i` holding the inner
instance's `color_index`), and the log of printed messages. -/
structure PlotState where
  axes : Axes
  pcpInst : Option ℕ
  messages : List String
  deriving DecidableEq, Repr

/-- A fresh process: empty axes, no `PlaneColorPicker.instance`, nothing
printed. -/
def initState : PlotState :=
  { axes := { children := [], aspectEqual := false,
              xlim := none, ylim := none, zlim := none },
    pcpInst := none, messages := [] }

/-- `plot_vec(vec, at=[0,0,0], color='k')` from `src/plot_helpers.py` lines
13–45: for a 3-vector add an `Arrow3D` from the first components of the origin
to the raw vector components, for a 2-vector likewise an `Arrow2D`, after
forcing equal aspect; otherwise print an error and draw nothing. -/
def plot_vec (vec origin : List ℚ) (color : String) (st : PlotState) : PlotState :=
  if vec.length = 3 then
    { st with axes :=
      { st.axes with
        aspectEqual := true,
        children := st.axes.children ++
          [Artist.arrow3D (origin.getD 0 0) (vec.getD 0 0)
                          (origin.getD 1 0) (vec.getD 1 0)
                          (origin.getD 2 0) (vec.getD 2 0) color] } }
  else if vec.length = 2 then
    { st with axes :=
      { st.axes with
        aspectEqual := true,
        children := st.axes.children ++
          [Artist.arrow2D (origin.getD 0 0) (vec.getD 0 0)
                          (origin.getD 1 0) (vec.getD 1 0) color] } }
  else
    { st with messages :=
        st.messages ++ ["Error: plot_vec supports only 2D and 3D vectors."] }

/-- The local `COLORS` palette of `plot_vecs` (line 50). -/
def VEC_COLORS : List String := ["k", "b", "g", "r", "c", "m"]

/-- The loop body of `plot_vecs` (lines 51–52), carrying the `enumerate`
index `i`: each vector is plotted with `COLORS[i % len(COLORS)]` at the
default origin. -/
def plot_vecs_from (i : ℕ) : List (List ℚ) → PlotState → PlotState
  | [], st => st
  | v :: vs, st =>
      plot_vecs_from (i + 1) vs
        (plot_vec v [0, 0, 0] (VEC_COLORS.getD (i % VEC_COLORS.length) "") st)

/-- `plot_vecs(*args)` from lines 48–52. -/
def plot_vecs (vecs : List (List ℚ)) (st : PlotState) : PlotState :=
  plot_vecs_from 0 vecs st

/-- `np.linspace(a, b, n)`: `n` evenly spaced samples from `a` to `b`. -/
def linspace (a b : ℚ) (n : ℕ) : List ℚ :=
  (List.range n).map (fun i : ℕ => a + (b - a) * (i : ℚ) / ((n : ℚ) - 1))

/-- `plot_line(dir_vec, point, color=None)` from lines 55–83: sample
`s = (np.linspace(-5,5,100) - point_x) / dir_vec_x` (an array-by-scalar
division that never raises; see the header note on a zero `dir_vec_x`) and
plot the polyline `point + dir_vec * s`.  A direction whose length is neither
2 nor 3 falls through both `if`s and does nothing. -/
def plot_line (dir_vec point : List ℚ) (color : Option String) (st : PlotState) :
    PlotState :=
  if dir_vec.length = 3 then
    let dir_vec_x := dir_vec.getD 0 0
    let dir_vec_y := dir_vec.getD 1 0
    let dir_vec_z := dir_vec.getD 2 0
    let point_x := point.getD 0 0
    let point_y := point.getD 1 0
    let point_z := point.getD 2 0
    let s := (linspace (-5) 5 100).map (fun t => (t - point_x) / dir_vec_x)
    let pts := s.map (fun si =>
      (point_x + dir_vec_x * si, point_y + dir_vec_y * si,
       point_z + dir_vec_z * si))
    { st with axes :=
      { st.axes with
        aspectEqual := true,
        children := st.axes.children ++ [Artist.line3D pts color] } }
  else if dir_vec.length = 2 then
    let dir_vec_x := dir_vec.getD 0 0
    let dir_vec_y := dir_vec.getD 1 0
    let point_x := point.getD 0 0
    let point_y := point.getD 1 0
    let s := (linspace (-5) 5 100).map (fun t => (t - point_x) / dir_vec_x)
    let pts := s.map (fun si =>
      (point_x + dir_vec_x * si, point_y + dir_vec_y * si))
    { st with axes :=
      { st.axes with
        aspectEqual := true,
        children := st.axes.children ++ [Artist.line2D pts color] } }
  else
    st

/-- `PlaneColorPicker.COLORS` (line 196). -/
def PLANE_COLORS : List String := ["b", "g", "r", "c", "m", "k"]

/-- `PlaneColorPicker.__init__(self, start=0)` (lines 205–207) acting on the
class attribute `instance`: construction creates the inner instance only when
none exists yet, otherwise it leaves the shared instance untouched. -/
def pcp_construct (start : ℕ) (inst : Option ℕ) : Option ℕ :=
  match inst with
  | none => some start
  | some i => some i

/-- `__PlaneColorPicker.__get_color` (lines 201–204): return the palette entry
at the current index and advance the index by one modulo `len(COLORS)`. -/
def pcp_get_color (i : ℕ) : String × ℕ :=
  (PLANE_COLORS.getD i "", (i + 1) % PLANE_COLORS.length)

/-- `np.meshgrid(x, y)`, first result: `X[i][j] = x[j]`, one row per `y`
entry. -/
def meshgridX (xs ys : List ℚ) : List (List ℚ) :=
  ys.map (fun _ => xs)

/-- `np.meshgrid(x, y)`, second result: `Y[i][j] = y[i]`. -/
def meshgridY (xs ys : List ℚ) : List (List ℚ) :=
  ys.map (fun yv => xs.map (fun _ => yv))

/-- `plot_plane(normal, d, color=None, xrange=[-5,5], yrange=[-5,5])` from
lines 86–114.  3-vector normal: build the 100×100 meshgrid over
`xrange`×`yrange`, draw the surface `Z = (d - normal_x*X - normal_y*Y)/normal_z`
with `alpha=0.2`, taking the next color from the `PlaneColorPicker` singleton
when no color is given (constructing it first, which initializes the shared
index to 0 only if absent); the division by `normal_z` is array-by-scalar and
never raises (header note).  2-vector normal: plot the line
`y = (d - normal_x*x)/normal_y`. -/
def plot_plane (normal : List ℚ) (d : ℚ) (color : Option String)
    (xrange yrange : List ℚ) (st : PlotState) : PlotState :=
  if normal.length = 3 then
    let normal_x := normal.getD 0 0
    let normal_y := normal.getD 1 0
    let normal_z := normal.getD 2 0
    let x := linspace (xrange.getD 0 0) (xrange.getD 1 0) 100
    let y := linspace (yrange.getD 0 0) (yrange.getD 1 0) 100
    let X := meshgridX x y
    let Y := meshgridY x y
    let cAndInst : String × Option ℕ :=
      match color with
      | some c => (c, st.pcpInst)
      | none =>
        match pcp_construct 0 st.pcpInst with
        | some i => ((pcp_get_color i).1, some (pcp_get_color i).2)
        | none => ("", none)
    let Z := (X.zip Y).map (fun XY =>
      (XY.1.zip XY.2).map (fun xy =>
        (d - normal_x * xy.1 - normal_y * xy.2) / normal_z))
    { st with
      pcpInst := cAndInst.2,
      axes :=
      { st.axes with
        aspectEqual := true,
        children := st.axes.children ++
          [Artist.surface3D X Y Z cAndInst.1 (1/5)] } }
  else if normal.length = 2 then
    let normal_x := normal.getD 0 0
    let normal_y := normal.getD 1 0
    let x := linspace (xrange.getD 0 0) (xrange.getD 1 0) 100
    let pts := x.map (fun xv => (xv, (d - normal_x * xv) / normal_y))
    { st with axes :=
      { st.axes with
        aspectEqual := true,
        children := st.axes.children ++ [Artist.line2D pts color] } }
  else
    st

/-- `type(ch) == Arrow3D` (line 157). -/
def isArrow3D : Artist → Bool
  | Artist.arrow3D _ _ _ _ _ _ _ => true
  | _ => false

/-- `type(ch) == Arrow2D` (line 158). -/
def isArrow2D : Artist → Bool
  | Artist.arrow2D _ _ _ _ _ => true
  | _ => false

/-- The two x-entries an `Arrow3D` contributes to `all_xs` (lines 165–166). -/
def arrow3Xs : Artist → List ℚ
  | Artist.arrow3D x0 x1 _ _ _ _ _ => [x0, x1]
  | _ => []

/-- The two y-entries an `Arrow3D` contributes to `all_ys` (lines 167–168). -/
def arrow3Ys : Artist → List ℚ
  | Artist.arrow3D _ _ y0 y1 _ _ _ => [y0, y1]
  | _ => []

/-- The two z-entries an `Arrow3D` contributes to `all_zs` (lines 169–170). -/
def arrow3Zs : Artist → List ℚ
  | Artist.arrow3D _ _ _ _ z0 z1 _ => [z0, z1]
  | _ => []

/-- The two x-entries an `Arrow2D` contributes to `all_xs` (lines 181–182). -/
def arrow2Xs : Artist → List ℚ
  | Artist.arrow2D x0 x1 _ _ _ => [x0, x1]
  | _ => []

/-- The two y-entries an `Arrow2D` contributes to `all_ys` (lines 183–184). -/
def arrow2Ys : Artist → List ℚ
  | Artist.arrow2D _ _ y0 y1 _ => [y0, y1]
  | _ => []

/-- Python's `min` on a list, total with an unused default for `[]` (it is
only applied to non-empty lists in `autoscale_arrows`). -/
def listMin : List ℚ → ℚ
  | [] => 0
  | x :: xs => xs.foldl min x

/-- Python's `max` on a list, total with an unused default for `[]`. -/
def listMax : List ℚ → ℚ
  | [] => 0
  | x :: xs => xs.foldl max x

/-- `autoscale_arrows(ax)` from lines 151–189.  Returns the updated axes, the
printed messages, and the Python return value (`some (-1)` for `return -1`,
`none` for falling off the end, i.e. `None`).  The source's early `return -1`
makes the three cases mutually exclusive, so they are written as an
`if`/`else` chain. -/
def autoscale_arrows (ax : Axes) : Axes × List String × Option Int :=
  let arrow3Ds := ax.children.filter isArrow3D
  let arrow2Ds := ax.children.filter isArrow2D
  if arrow2Ds ≠ [] ∧ arrow3Ds ≠ [] then
    (ax, ["Mixing Arrow2D and Arrow3D not supported"], some (-1))
  else if arrow3Ds ≠ [] then
    let all_xs := arrow3Ds.flatMap arrow3Xs
    let all_ys := arrow3Ds.flatMap arrow3Ys
    let all_zs := arrow3Ds.flatMap arrow3Zs
    let min_x := listMin all_xs
    let min_y := listMin all_ys
    let min_z := listMin all_zs
    let cube_side := max (listMax all_xs - min_x)
      (max (listMax all_ys - min_y) (listMax all_zs - min_z))
    ({ ax with
        xlim := some (min_x, min_x + cube_side),
        ylim := some (min_y, min_y + cube_side),
        zlim := some (min_z, min_z + cube_side) }, [], none)
  else if arrow2Ds ≠ [] then
    let all_xs := arrow2Ds.flatMap arrow2Xs
    let all_ys := arrow2Ds.flatMap arrow2Ys
    let min_x := listMin all_xs
    let min_y := listMin all_ys
    let square_side := max (listMax all_xs - min_x) (listMax all_ys - min_y)
    ({ ax with
        xlim := some (min_x, min_x + square_side),
        ylim := some (min_y, min_y + square_side) }, [], none)
  else
    (ax, [], none)

/-- A concrete axes holding exactly one 3D arrow from `(0,0,0)` to `(2,4,6)`,
used for the scaling example. -/
def oneArrowAxes : Axes :=
  { children := [Artist.arrow3D 0 2 0 4 0 6 "k"], aspectEqual := true,
    xlim := none, ylim := none, zlim := none }

/-! ### Spec-side descriptions used to state refinement theorems -/

/-- The color an artist was drawn with (`none` when matplotlib was left to
choose). -/
def artistColor : Artist → Option String
  | Artist.arrow2D _ _ _ _ c => some c
  | Artist.arrow3D _ _ _ _ _ _ c => some c
  | Artist.line2D _ c => c
  | Artist.line3D _ c => c
  | Artist.surface3D _ _ _ c _ => some c

/-- Spec form of the arrow `plot_vec` adds for a 2- or 3-vector at the
default origin `[0,0,0]`. -/
def vecArrow (v : List ℚ) (c : String) : Artist :=
  if v.length = 3 then
    Artist.arrow3D 0 (v.getD 0 0) 0 (v.getD 1 0) 0 (v.getD 2 0) c
  else
    Artist.arrow2D 0 (v.getD 0 0) 0 (v.getD 1 0) c

/-- Spec form of the height of the plane `normal . (x,y,z) = d` above the
grid point `(xv, yv)`, solved for z. -/
def planeZ (normal : List ℚ) (d xv yv : ℚ) : ℚ :=
  (d - normal.getD 0 0 * xv - normal.getD 1 0 * yv) / normal.getD 2 0

/-- Spec form of the `i`-th of numpy's 100 evenly spaced x-samples from -5
to 5. -/
def sampleX (i : ℕ) : ℚ := -5 + 10 * (i : ℚ) / 99

/-- Spec form of the derived line parameter
`s = (x_sample - point_x) / direction_x`. -/
def lineParam (dir_vec point : List ℚ) (i : ℕ) : ℚ :=
  (sampleX i - point.getD 0 0) / dir_vec.getD 0 0

/-- Spec form of the `i`-th sampled 2D point `point + s * direction`. -/
def linePoint2 (dir_vec point : List ℚ) (i : ℕ) : ℚ × ℚ :=
  (point.getD 0 0 + dir_vec.getD 0 0 * lineParam dir_vec point i,
   point.getD 1 0 + dir_vec.getD 1 0 * lineParam dir_vec point i)

/-- Spec form of the `i`-th sampled 3D point `point + s * direction`. -/
def linePoint3 (dir_vec point : List ℚ) (i : ℕ) : ℚ × ℚ × ℚ :=
  (point.getD 0 0 + dir_vec.getD 0 0 * lineParam dir_vec point i,
   point.getD 1 0 + dir_vec.getD 1 0 * lineParam dir_vec point i,
   point.getD 2 0 + dir_vec.getD 2 0 * lineParam dir_vec point i)

/-- `m` is the minimum Python's `min` returns on the non-empty list `l`. -/
def IsMinOf (m : ℚ) (l : List ℚ) : Prop := m ∈ l ∧ ∀ y ∈ l, m ≤ y

/-- `m` is the maximum Python's `max` returns on the non-empty list `l`. -/
def IsMaxOf (m : ℚ) (l : List ℚ) : Prop := m ∈ l ∧ ∀ y ∈ l, y ≤ m

lemma linspace_neg5_5_100 :
    linspace (-5) 5 100 = (List.range 100).map sampleX := by
  unfold linspace
  refine List.map_congr_left ?_
  intro i _
  unfold sampleX
  norm_num

/-! ### C1 and C9: `plot_vec` -/

/-- C1: for every vector-like input `v` of length 2 or 3 and every origin,
`plot_vec` adds exactly one arrow artifact to the current axes whose start
point is the first components of the origin and whose end point is the raw
components of `v` (not origin+v), leaves the message log alone, and forces
equal aspect ratio on the axes. -/
theorem C1_plot_vec_single_arrow (v origin : List ℚ) (c : String)
    (st : PlotState) (h : v.length = 2 ∨ v.length = 3) :
    (plot_vec v origin c st).axes.aspectEqual = true ∧
    (plot_vec v origin c st).messages = st.messages ∧
    (v.length = 2 → (plot_vec v origin c st).axes.children =
      st.axes.children ++
        [Artist.arrow2D (origin.getD 0 0) (v.getD 0 0)
                        (origin.getD 1 0) (v.getD 1 0) c]) ∧
    (v.length = 3 → (plot_vec v origin c st).axes.children =
      st.axes.children ++
        [Artist.arrow3D (origin.getD 0 0) (v.getD 0 0)
                        (origin.getD 1 0) (v.getD 1 0)
                        (origin.getD 2 0) (v.getD 2 0) c]) := by
  rcases h with h | h <;> simp [plot_vec, h]

/-- Witness for C1 at `v = (1,2)`. -/
theorem C1_plot_vec_single_arrow_witness :
    (plot_vec [1, 2] [0, 0, 0] "k" initState).axes.aspectEqual = true ∧
    (plot_vec [1, 2] [0, 0, 0] "k" initState).messages = initState.messages ∧
    (([(1 : ℚ), 2]).length = 2 →
      (plot_vec [1, 2] [0, 0, 0] "k" initState).axes.children =
        initState.axes.children ++
          [Artist.arrow2D (([(0 : ℚ), 0, 0]).getD 0 0) (([(1 : ℚ), 2]).getD 0 0)
                          (([(0 : ℚ), 0, 0]).getD 1 0) (([(1 : ℚ), 2]).getD 1 0) "k"]) ∧
    (([(1 : ℚ), 2]).length = 3 →
      (plot_vec [1, 2] [0, 0, 0] "k" initState).axes.children =
        initState.axes.children ++
          [Artist.arrow3D (([(0 : ℚ), 0, 0]).getD 0 0) (([(1 : ℚ), 2]).getD 0 0)
                          (([(0 : ℚ), 0, 0]).getD 1 0) (([(1 : ℚ), 2]).getD 1 0)
                          (([(0 : ℚ), 0, 0]).getD 2 0) (([(1 : ℚ), 2]).getD 2 0) "k"]) :=
  C1_plot_vec_single_arrow [1, 2] [0, 0, 0] "k" initState (Or.inl (by decide))

/-- C9: for every vector whose length is neither 2 nor 3, `plot_vec` only
appends the error message to the printed output: the axes (children, aspect,
limits) are untouched and no exception escapes (the result is a total state,
not a failure). -/
theorem C9_plot_vec_bad_length (v origin : List ℚ) (c : String)
    (st : PlotState) (h2 : v.length ≠ 2) (h3 : v.length ≠ 3) :
    plot_vec v origin c st =
      { st with messages :=
          st.messages ++ ["Error: plot_vec supports only 2D and 3D vectors."] } := by
  simp [plot_vec, h2, h3]

/-- Witness for C9 at a 4-vector. -/
theorem C9_plot_vec_bad_length_witness :
    plot_vec [1, 2, 3, 4] [0, 0, 0] "k" initState =
      { initState with messages :=
          initState.messages ++ ["Error: plot_vec supports only 2D and 3D vectors."] } :=
  C9_plot_vec_bad_length [1, 2, 3, 4] [0, 0, 0] "k" initState
    (by decide) (by decide)

/-! ### C6 and C2: `plot_line` -/

/-- The exact result of `plot_line` on a 2-dimensional direction, read off
the `len(dir_vec) == 2` branch. -/
lemma plot_line_eq_two (dir_vec point : List ℚ) (c : Option String)
    (st : PlotState) (h : dir_vec.length = 2) :
    plot_line dir_vec point c st = { st with axes :=
      { st.axes with
        aspectEqual := true,
        children := st.axes.children ++
          [Artist.line2D
            (((linspace (-5) 5 100).map
                (fun t => (t - point.getD 0 0) / dir_vec.getD 0 0)).map
              (fun si => (point.getD 0 0 + dir_vec.getD 0 0 * si,
                          point.getD 1 0 + dir_vec.getD 1 0 * si))) c] } } := by
  have h3 : dir_vec.length ≠ 3 := by omega
  unfold plot_line
  rw [if_neg h3, if_pos h]

/-- The exact result of `plot_line` on a 3-dimensional direction, read off
the `len(dir_vec) == 3` branch. -/
lemma plot_line_eq_three (dir_vec point : List ℚ) (c : Option String)
    (st : PlotState) (h : dir_vec.length = 3) :
    plot_line dir_vec point c st = { st with axes :=
      { st.axes with
        aspectEqual := true,
        children := st.axes.children ++
          [Artist.line3D
            (((linspace (-5) 5 100).map
                (fun t => (t - point.getD 0 0) / dir_vec.getD 0 0)).map
              (fun si => (point.getD 0 0 + dir_vec.getD 0 0 * si,
                          point.getD 1 0 + dir_vec.getD 1 0 * si,
                          point.getD 2 0 + dir_vec.getD 2 0 * si))) c] } } := by
  unfold plot_line
  rw [if_pos h]

/-- C6 counterexample: neither of the claim's inputs fails.  Direction
`(1,0)` through `(0,0)` — the claim's own example, whose first component, the
only divisor in `plot_line`, is 1 — and direction `(0,1)` through `(0,0)` —
the zero-first-component case of the claim's general sentence — both complete
normally, each adding its polyline and printing nothing: the source divides a
NumPy array by the scalar first component, which warns and yields non-finite
values instead of raising. -/
theorem C6_plot_line_never_raises :
    (plot_line [1, 0] [0, 0] none initState).axes.children.length = 1 ∧
    (plot_line [1, 0] [0, 0] none initState).messages = [] ∧
    (plot_line [0, 1] [0, 0] none initState).axes.children.length = 1 ∧
    (plot_line [0, 1] [0, 0] none initState).messages = [] :=
  ⟨rfl, rfl, rfl, rfl⟩

/-- C6 amended: `plot_line` never fails with a division-by-zero error — the
documented failure mode does not exist in the code.  For every 2- or
3-dimensional direction, a zero first component included, the call completes,
appends exactly one polyline of 100 sample points, prints nothing, and leaves
the color-cycler state alone (a zero first component only makes NumPy emit a
`RuntimeWarning` and the sample values non-finite). -/
theorem C6_plot_line_zero_component_completes (dir_vec point : List ℚ)
    (c : Option String) (st : PlotState)
    (h : dir_vec.length = 2 ∨ dir_vec.length = 3) :
    (plot_line dir_vec point c st).messages = st.messages ∧
    (plot_line dir_vec point c st).pcpInst = st.pcpInst ∧
    (dir_vec.length = 2 → ∃ pts : List (ℚ × ℚ), pts.length = 100 ∧
      (plot_line dir_vec point c st).axes.children =
        st.axes.children ++ [Artist.line2D pts c]) ∧
    (dir_vec.length = 3 → ∃ pts : List (ℚ × ℚ × ℚ), pts.length = 100 ∧
      (plot_line dir_vec point c st).axes.children =
        st.axes.children ++ [Artist.line3D pts c]) := by
  rcases h with h | h
  · rw [plot_line_eq_two dir_vec point c st h]
    refine ⟨rfl, rfl, fun _ => ⟨_, by simp [linspace], rfl⟩, fun h3 => ?_⟩
    rw [h] at h3
    exact absurd h3 (by decide)
  · rw [plot_line_eq_three dir_vec point c st h]
    refine ⟨rfl, rfl, fun h2 => ?_, fun _ => ⟨_, by simp [linspace], rfl⟩⟩
    rw [h] at h2
    exact absurd h2 (by decide)

/-- Witness for the amended C6 at direction `(0,1)` through `(0,0)`, the zero
first component case. -/
theorem C6_plot_line_zero_component_completes_witness :
    (plot_line [0, 1] [0, 0] none initState).messages = initState.messages ∧
    (plot_line [0, 1] [0, 0] none initState).pcpInst = initState.pcpInst ∧
    (([(0 : ℚ), 1]).length = 2 → ∃ pts : List (ℚ × ℚ), pts.length = 100 ∧
      (plot_line [0, 1] [0, 0] none initState).axes.children =
        initState.axes.children ++ [Artist.line2D pts none]) ∧
    (([(0 : ℚ), 1]).length = 3 → ∃ pts : List (ℚ × ℚ × ℚ), pts.length = 100 ∧
      (plot_line [0, 1] [0, 0] none initState).axes.children =
        initState.axes.children ++ [Artist.line3D pts none]) :=
  C6_plot_line_zero_component_completes [0, 1] [0, 0] none initState
    (Or.inl (by decide))

/-- C2: for a direction of length 2 or 3 with nonzero first component,
`plot_line` appends exactly one polyline of exactly 100 samples
`point + s * direction` with `s = (x_sample - point_x) / direction_x`, the
100 x-samples being evenly spaced from -5 to 5; consequently the polyline's
x-coordinates are exactly those samples, running linearly from
`sampleX 0 = -5` to `sampleX 99 = 5`. -/
theorem C2_plot_line_samples (dir_vec point : List ℚ) (c : Option String)
    (st : PlotState) (h : dir_vec.length = 2 ∨ dir_vec.length = 3)
    (hx : dir_vec.getD 0 0 ≠ 0) :
    (dir_vec.length = 2 → (plot_line dir_vec point c st).axes.children =
      st.axes.children ++
        [Artist.line2D ((List.range 100).map (linePoint2 dir_vec point)) c]) ∧
    (dir_vec.length = 3 → (plot_line dir_vec point c st).axes.children =
      st.axes.children ++
        [Artist.line3D ((List.range 100).map (linePoint3 dir_vec point)) c]) ∧
    ((List.range 100).map (linePoint2 dir_vec point)).length = 100 ∧
    ((List.range 100).map (linePoint3 dir_vec point)).length = 100 ∧
    (∀ i, (linePoint2 dir_vec point i).1 = sampleX i) ∧
    (∀ i, (linePoint3 dir_vec point i).1 = sampleX i) ∧
    sampleX 0 = -5 ∧ sampleX 99 = 5 := by
  refine ⟨?_, ?_, by simp, by simp, ?_, ?_,
    by norm_num [sampleX], by norm_num [sampleX]⟩
  · intro h2
    have hmap : ((linspace (-5) 5 100).map
          (fun t => (t - point.getD 0 0) / dir_vec.getD 0 0)).map
          (fun si => (point.getD 0 0 + dir_vec.getD 0 0 * si,
                      point.getD 1 0 + dir_vec.getD 1 0 * si)) =
        (List.range 100).map (linePoint2 dir_vec point) := by
      rw [linspace_neg5_5_100, List.map_map, List.map_map]
      rfl
    rw [plot_line_eq_two dir_vec point c st h2]
    exact congrArg (fun L => st.axes.children ++ [Artist.line2D L c]) hmap
  · intro h3
    have hmap : ((linspace (-5) 5 100).map
          (fun t => (t - point.getD 0 0) / dir_vec.getD 0 0)).map
          (fun si => (point.getD 0 0 + dir_vec.getD 0 0 * si,
                      point.getD 1 0 + dir_vec.getD 1 0 * si,
                      point.getD 2 0 + dir_vec.getD 2 0 * si)) =
        (List.range 100).map (linePoint3 dir_vec point) := by
      rw [linspace_neg5_5_100, List.map_map, List.map_map]
      rfl
    rw [plot_line_eq_three dir_vec point c st h3]
    exact congrArg (fun L => st.axes.children ++ [Artist.line3D L c]) hmap
  · intro i
    unfold linePoint2 lineParam
    rw [mul_div_assoc', mul_comm, mul_div_assoc, div_self hx, mul_one]
    ring
  · intro i
    unfold linePoint3 lineParam
    rw [mul_div_assoc', mul_comm, mul_div_assoc, div_self hx, mul_one]
    ring

/-- Witness for C2 at direction `(2,1)` through `(1,3)`. -/
theorem C2_plot_line_samples_witness :
    (([(2 : ℚ), 1]).length = 2 →
      (plot_line [2, 1] [1, 3] none initState).axes.children =
        initState.axes.children ++
          [Artist.line2D ((List.range 100).map (linePoint2 [2, 1] [1, 3])) none]) ∧
    (([(2 : ℚ), 1]).length = 3 →
      (plot_line [2, 1] [1, 3] none initState).axes.children =
        initState.axes.children ++
          [Artist.line3D ((List.range 100).map (linePoint3 [2, 1] [1, 3])) none]) ∧
    ((List.range 100).map (linePoint2 [2, 1] [1, 3])).length = 100 ∧
    ((List.range 100).map (linePoint3 [2, 1] [1, 3])).length = 100 ∧
    (∀ i, (linePoint2 [2, 1] [1, 3] i).1 = sampleX i) ∧
    (∀ i, (linePoint3 [2, 1] [1, 3] i).1 = sampleX i) ∧
    sampleX 0 = -5 ∧ sampleX 99 = 5 :=
  C2_plot_line_samples [2, 1] [1, 3] none initState
    (Or.inl (by decide)) (by decide)

/-! ### C4, C7 and C10: `autoscale_arrows` -/

lemma foldl_min_mem (t : List ℚ) : ∀ x : ℚ, t.foldl min x ∈ x :: t := by
  induction t with
  | nil => intro x; simp
  | cons a t ih =>
    intro x
    simp only [List.foldl_cons]
    rcases List.mem_cons.mp (ih (min x a)) with hm | hm
    · rw [hm]
      rcases min_choice x a with hc | hc <;> rw [hc] <;> simp
    · simp [List.mem_cons, hm]

lemma foldl_min_le (t : List ℚ) : ∀ x : ℚ, ∀ y ∈ x :: t, t.foldl min x ≤ y := by
  induction t with
  | nil =>
    intro x y hy
    simp only [List.mem_singleton] at hy
    simp [hy]
  | cons a t ih =>
    intro x y hy
    simp only [List.foldl_cons]
    rcases List.mem_cons.mp hy with h1 | hy'
    · rw [h1]
      exact le_trans (ih (min x a) (min x a) (List.mem_cons_self _ _))
        (min_le_left _ _)
    · rcases List.mem_cons.mp hy' with h1 | hy''
      · rw [h1]
        exact le_trans (ih (min x a) (min x a) (List.mem_cons_self _ _))
          (min_le_right _ _)
      · exact ih (min x a) y (List.mem_cons_of_mem _ hy'')

lemma foldl_max_mem (t : List ℚ) : ∀ x : ℚ, t.foldl max x ∈ x :: t := by
  induction t with
  | nil => intro x; simp
  | cons a t ih =>
    intro x
    simp only [List.foldl_cons]
    rcases List.mem_cons.mp (ih (max x a)) with hm | hm
    · rw [hm]
      rcases max_choice x a with hc | hc <;> rw [hc] <;> simp
    · simp [List.mem_cons, hm]

lemma foldl_max_le (t : List ℚ) : ∀ x : ℚ, ∀ y ∈ x :: t, y ≤ t.foldl max x := by
  induction t with
  | nil =>
    intro x y hy
    simp only [List.mem_singleton] at hy
    simp [hy]
  | cons a t ih =>
    intro x y hy
    simp only [List.foldl_cons]
    rcases List.mem_cons.mp hy with h1 | hy'
    · rw [h1]
      exact le_trans (le_max_left _ _)
        (ih (max x a) (max x a) (List.mem_cons_self _ _))
    · rcases List.mem_cons.mp hy' with h1 | hy''
      · rw [h1]
        exact le_trans (le_max_right _ _)
          (ih (max x a) (max x a) (List.mem_cons_self _ _))
      · exact ih (max x a) y (List.mem_cons_of_mem _ hy'')

lemma listMin_is_min (l : List ℚ) (h : l ≠ []) : IsMinOf (listMin l) l := by
  cases l with
  | nil => exact absurd rfl h
  | cons x xs => exact ⟨foldl_min_mem xs x, foldl_min_le xs x⟩

lemma listMax_is_max (l : List ℚ) (h : l ≠ []) : IsMaxOf (listMax l) l := by
  cases l with
  | nil => exact absurd rfl h
  | cons x xs => exact ⟨foldl_max_mem xs x, foldl_max_le xs x⟩

lemma filter3_flatMap_ne_nil (l : List Artist) (f : Artist → List ℚ)
    (hf : ∀ a, isArrow3D a = true → f a ≠ []) (h : l.filter isArrow3D ≠ []) :
    (l.filter isArrow3D).flatMap f ≠ [] := by
  obtain ⟨a, t, ht⟩ : ∃ a t, l.filter isArrow3D = a :: t := by
    cases hc : l.filter isArrow3D with
    | nil => exact absurd hc h
    | cons a t => exact ⟨a, t, rfl⟩
  have ha : isArrow3D a = true := by
    have hmem : a ∈ l.filter isArrow3D := ht ▸ List.mem_cons_self a t
    exact (List.mem_filter.mp hmem).2
  rw [ht, List.flatMap_cons]
  intro hcon
  exact hf a ha (List.append_eq_nil.mp hcon).1

lemma arrow3Xs_ne_nil (a : Artist) (ha : isArrow3D a = true) : arrow3Xs a ≠ [] := by
  cases a <;> simp [isArrow3D] at ha ⊢ <;> simp [arrow3Xs]

lemma arrow3Ys_ne_nil (a : Artist) (ha : isArrow3D a = true) : arrow3Ys a ≠ [] := by
  cases a <;> simp [isArrow3D] at ha ⊢ <;> simp [arrow3Ys]

lemma arrow3Zs_ne_nil (a : Artist) (ha : isArrow3D a = true) : arrow3Zs a ≠ [] := by
  cases a <;> simp [isArrow3D] at ha ⊢ <;> simp [arrow3Zs]

/-- The exact result of `autoscale_arrows` on a pure-`Arrow3D` axes, read off
the `if arrow3Ds:` branch. -/
lemma autoscale_arrows_eq_three (ax : Axes)
    (h2 : ax.children.filter isArrow2D = [])
    (h3 : ax.children.filter isArrow3D ≠ []) :
    autoscale_arrows ax =
      ({ ax with
          xlim := some (listMin ((ax.children.filter isArrow3D).flatMap arrow3Xs),
            listMin ((ax.children.filter isArrow3D).flatMap arrow3Xs) +
              max (listMax ((ax.children.filter isArrow3D).flatMap arrow3Xs) -
                   listMin ((ax.children.filter isArrow3D).flatMap arrow3Xs))
                (max (listMax ((ax.children.filter isArrow3D).flatMap arrow3Ys) -
                      listMin ((ax.children.filter isArrow3D).flatMap arrow3Ys))
                     (listMax ((ax.children.filter isArrow3D).flatMap arrow3Zs) -
                      listMin ((ax.children.filter isArrow3D).flatMap arrow3Zs)))),
          ylim := some (listMin ((ax.children.filter isArrow3D).flatMap arrow3Ys),
            listMin ((ax.children.filter isArrow3D).flatMap arrow3Ys) +
              max (listMax ((ax.children.filter isArrow3D).flatMap arrow3Xs) -
                   listMin ((ax.children.filter isArrow3D).flatMap arrow3Xs))
                (max (listMax ((ax.children.filter isArrow3D).flatMap arrow3Ys) -
                      listMin ((ax.children.filter isArrow3D).flatMap arrow3Ys))
                     (listMax ((ax.children.filter isArrow3D).flatMap arrow3Zs) -
                      listMin ((ax.children.filter isArrow3D).flatMap arrow3Zs)))),
          zlim := some (listMin ((ax.children.filter isArrow3D).flatMap arrow3Zs),
            listMin ((ax.children.filter isArrow3D).flatMap arrow3Zs) +
              max (listMax ((ax.children.filter isArrow3D).flatMap arrow3Xs) -
                   listMin ((ax.children.filter isArrow3D).flatMap arrow3Xs))
                (max (listMax ((ax.children.filter isArrow3D).flatMap arrow3Ys) -
                      listMin ((ax.children.filter isArrow3D).flatMap arrow3Ys))
                     (listMax ((ax.children.filter isArrow3D).flatMap arrow3Zs) -
                      listMin ((ax.children.filter isArrow3D).flatMap arrow3Zs)))) },
        [], none) := by
  unfold autoscale_arrows
  simp only []
  rw [if_neg (fun hc => hc.1 h2), if_pos h3]

/-- C4: on an axes holding only `Arrow3D` arrows (at least one, and no 2D
arrows), `autoscale_arrows` takes the minimum and maximum of the arrow
endpoints along each of x/y/z, uses the largest of the three extents as the
cube side, and anchors each axis's limits at that axis's minimum; in
particular one arrow from `(0,0,0)` to `(2,4,6)` yields limits `[0,6]` on all
three axes, with nothing printed and `None` returned. -/
theorem C4_autoscale_cube :
    (∀ ax : Axes, ax.children.filter isArrow2D = [] →
      ax.children.filter isArrow3D ≠ [] →
      ∃ mx Mx my My mz Mz : ℚ,
        IsMinOf mx ((ax.children.filter isArrow3D).flatMap arrow3Xs) ∧
        IsMaxOf Mx ((ax.children.filter isArrow3D).flatMap arrow3Xs) ∧
        IsMinOf my ((ax.children.filter isArrow3D).flatMap arrow3Ys) ∧
        IsMaxOf My ((ax.children.filter isArrow3D).flatMap arrow3Ys) ∧
        IsMinOf mz ((ax.children.filter isArrow3D).flatMap arrow3Zs) ∧
        IsMaxOf Mz ((ax.children.filter isArrow3D).flatMap arrow3Zs) ∧
        autoscale_arrows ax =
          ({ ax with
              xlim := some (mx, mx + max (Mx - mx) (max (My - my) (Mz - mz))),
              ylim := some (my, my + max (Mx - mx) (max (My - my) (Mz - mz))),
              zlim := some (mz, mz + max (Mx - mx) (max (My - my) (Mz - mz))) },
            [], none)) ∧
    autoscale_arrows oneArrowAxes =
      ({ oneArrowAxes with
          xlim := some (0, 6), ylim := some (0, 6), zlim := some (0, 6) },
        [], none) := by
  constructor
  · intro ax h2 h3
    exact ⟨_, _, _, _, _, _,
      listMin_is_min _ (filter3_flatMap_ne_nil _ _ arrow3Xs_ne_nil h3),
      listMax_is_max _ (filter3_flatMap_ne_nil _ _ arrow3Xs_ne_nil h3),
      listMin_is_min _ (filter3_flatMap_ne_nil _ _ arrow3Ys_ne_nil h3),
      listMax_is_max _ (filter3_flatMap_ne_nil _ _ arrow3Ys_ne_nil h3),
      listMin_is_min _ (filter3_flatMap_ne_nil _ _ arrow3Zs_ne_nil h3),
      listMax_is_max _ (filter3_flatMap_ne_nil _ _ arrow3Zs_ne_nil h3),
      autoscale_arrows_eq_three ax h2 h3⟩
  · rw [autoscale_arrows_eq_three oneArrowAxes (by rfl) (by simp [oneArrowAxes, isArrow3D])]
    norm_num [oneArrowAxes, isArrow3D, arrow3Xs, arrow3Ys, arrow3Zs,
      listMin, listMax, min_def, max_def]

/-- Witness for C4's general part at the single arrow `(0,0,0) → (2,4,6)`. -/
theorem C4_autoscale_cube_witness :
    ∃ mx Mx my My mz Mz : ℚ,
      IsMinOf mx ((oneArrowAxes.children.filter isArrow3D).flatMap arrow3Xs) ∧
      IsMaxOf Mx ((oneArrowAxes.children.filter isArrow3D).flatMap arrow3Xs) ∧
      IsMinOf my ((oneArrowAxes.children.filter isArrow3D).flatMap arrow3Ys) ∧
      IsMaxOf My ((oneArrowAxes.children.filter isArrow3D).flatMap arrow3Ys) ∧
      IsMinOf mz ((oneArrowAxes.children.filter isArrow3D).flatMap arrow3Zs) ∧
      IsMaxOf Mz ((oneArrowAxes.children.filter isArrow3D).flatMap arrow3Zs) ∧
      autoscale_arrows oneArrowAxes =
        ({ oneArrowAxes with
            xlim := some (mx, mx + max (Mx - mx) (max (My - my) (Mz - mz))),
            ylim := some (my, my + max (Mx - mx) (max (My - my) (Mz - mz))),
            zlim := some (mz, mz + max (Mx - mx) (max (My - my) (Mz - mz))) },
          [], none) :=
  C4_autoscale_cube.1 oneArrowAxes (by rfl) (by simp [oneArrowAxes, isArrow3D])

/-- C7: an axes holding at least one `Arrow2D` and at least one `Arrow3D`
makes `autoscale_arrows` print the unsupported-mixing message, change no
axis limits, and return the sentinel `-1`. -/
theorem C7_autoscale_mixed (ax : Axes)
    (h2 : ax.children.filter isArrow2D ≠ [])
    (h3 : ax.children.filter isArrow3D ≠ []) :
    autoscale_arrows ax =
      (ax, ["Mixing Arrow2D and Arrow3D not supported"], some (-1)) := by
  unfold autoscale_arrows
  simp only []
  rw [if_pos ⟨h2, h3⟩]

/-- Witness for C7 at an axes with one 2D and one 3D arrow. -/
theorem C7_autoscale_mixed_witness :
    autoscale_arrows
      { children := [Artist.arrow3D 0 2 0 4 0 6 "k", Artist.arrow2D 0 1 0 1 "b"],
        aspectEqual := true, xlim := none, ylim := none, zlim := none } =
      ({ children := [Artist.arrow3D 0 2 0 4 0 6 "k", Artist.arrow2D 0 1 0 1 "b"],
         aspectEqual := true, xlim := none, ylim := none, zlim := none },
        ["Mixing Arrow2D and Arrow3D not supported"], some (-1)) :=
  C7_autoscale_mixed
    { children := [Artist.arrow3D 0 2 0 4 0 6 "k", Artist.arrow2D 0 1 0 1 "b"],
      aspectEqual := true, xlim := none, ylim := none, zlim := none }
    (by decide) (by decide)

/-- C10: an axes with no `Arrow2D` and no `Arrow3D` children leaves
`autoscale_arrows` a silent no-op: every axis limit is unchanged, nothing is
printed, and the Python `None` (not `-1`) is returned. -/
theorem C10_autoscale_no_arrows (ax : Axes)
    (h2 : ax.children.filter isArrow2D = [])
    (h3 : ax.children.filter isArrow3D = []) :
    autoscale_arrows ax = (ax, [], none) := by
  unfold autoscale_arrows
  simp only []
  rw [if_neg (fun hc => hc.2 h3), if_neg (fun hc => hc h3),
    if_neg (fun hc => hc h2)]

/-- Witness for C10 at an axes whose only child is a polyline. -/
theorem C10_autoscale_no_arrows_witness :
    autoscale_arrows
      { children := [Artist.line2D [(0, 0), (1, 1)] none], aspectEqual := true,
        xlim := some (0, 1), ylim := some (0, 1), zlim := none } =
      ({ children := [Artist.line2D [(0, 0), (1, 1)] none], aspectEqual := true,
         xlim := some (0, 1), ylim := some (0, 1), zlim := none }, [], none) :=
  C10_autoscale_no_arrows
    { children := [Artist.line2D [(0, 0), (1, 1)] none], aspectEqual := true,
      xlim := some (0, 1), ylim := some (0, 1), zlim := none }
    (by decide) (by decide)

/-! ### C8: `plot_vecs` -/

lemma plot_vec_default_origin (v : List ℚ) (c : String) (st : PlotState)
    (h : v.length = 2 ∨ v.length = 3) :
    (plot_vec v [0, 0, 0] c st).axes.children =
      st.axes.children ++ [vecArrow v c] := by
  rcases h with h | h
  · have h3 : v.length ≠ 3 := by omega
    simp only [plot_vec, vecArrow, if_neg h3, if_pos h]
    rfl
  · simp only [plot_vec, vecArrow, if_pos h]
    rfl

lemma plot_vec_pcpInst (v origin : List ℚ) (c : String) (st : PlotState) :
    (plot_vec v origin c st).pcpInst = st.pcpInst := by
  unfold plot_vec
  split
  · rfl
  split
  · rfl
  · rfl

lemma plot_vecs_from_children (vecs : List (List ℚ)) :
    ∀ (i : ℕ) (st : PlotState),
      (∀ v ∈ vecs, v.length = 2 ∨ v.length = 3) →
      (plot_vecs_from i vecs st).axes.children =
        st.axes.children ++ (List.enumFrom i vecs).map
          (fun p => vecArrow p.2 (VEC_COLORS.getD (p.1 % 6) "")) := by
  induction vecs with
  | nil =>
    intro i st _
    simp [plot_vecs_from, List.enumFrom]
  | cons v vs ih =>
    intro i st hlen
    have hv := hlen v (List.mem_cons_self _ _)
    have hrest : ∀ w ∈ vs, w.length = 2 ∨ w.length = 3 :=
      fun w hw => hlen w (List.mem_cons_of_mem _ hw)
    show (plot_vecs_from (i + 1) vs
      (plot_vec v [0, 0, 0] (VEC_COLORS.getD (i % VEC_COLORS.length) "") st)).axes.children = _
    rw [ih (i + 1) _ hrest, plot_vec_default_origin v _ _ hv]
    simp [List.enumFrom, List.append_assoc]
    rfl

lemma plot_vecs_from_pcpInst (vecs : List (List ℚ)) :
    ∀ (i : ℕ) (st : PlotState),
      (plot_vecs_from i vecs st).pcpInst = st.pcpInst := by
  induction vecs with
  | nil => intro i st; rfl
  | cons v vs ih =>
    intro i st
    show (plot_vecs_from (i + 1) vs _).pcpInst = _
    rw [ih (i + 1)]
    exact plot_vec_pcpInst _ _ _ _

/-- C8: `plot_vecs` colors the `i`-th vector with entry `i mod 6` of the
fixed palette `[black, blue, green, red, cyan, magenta]`, by position alone —
the shared plane-color cycler is neither consulted nor advanced; in
particular seven vectors receive `[k, b, g, r, c, m, k]`. -/
theorem C8_plot_vecs_palette :
    (∀ (vecs : List (List ℚ)) (st : PlotState),
      (∀ v ∈ vecs, v.length = 2 ∨ v.length = 3) →
      (plot_vecs vecs st).axes.children =
        st.axes.children ++ vecs.enum.map
          (fun p => vecArrow p.2 (VEC_COLORS.getD (p.1 % 6) "")) ∧
      (plot_vecs vecs st).pcpInst = st.pcpInst) ∧
    VEC_COLORS = ["k", "b", "g", "r", "c", "m"] ∧
    (plot_vecs [[1, 0], [2, 0], [3, 0], [4, 0], [5, 0], [6, 0], [7, 0]]
        initState).axes.children.map artistColor =
      [some "k", some "b", some "g", some "r", some "c", some "m", some "k"] := by
  refine ⟨fun vecs st hlen => ⟨?_, plot_vecs_from_pcpInst vecs 0 st⟩, rfl, by decide⟩
  exact plot_vecs_from_children vecs 0 st hlen

/-- Witness for C8's general part at two concrete vectors. -/
theorem C8_plot_vecs_palette_witness :
    (plot_vecs [[1, 0], [0, 1, 2]] initState).axes.children =
      initState.axes.children ++ ([[(1 : ℚ), 0], [0, 1, 2]]).enum.map
        (fun p => vecArrow p.2 (VEC_COLORS.getD (p.1 % 6) "")) ∧
    (plot_vecs [[1, 0], [0, 1, 2]] initState).pcpInst = initState.pcpInst :=
  C8_plot_vecs_palette.1 [[1, 0], [0, 1, 2]] initState (by decide)

/-! ### C3 and C5: `plot_plane` and the `PlaneColorPicker` singleton -/

lemma zip_map_self {α β : Type} (l : List α) (g : α → β) :
    l.zip (l.map g) = l.map (fun a => (a, g a)) := by
  induction l with
  | nil => rfl
  | cons a t ih => simp [ih]

lemma plot_plane_Z_structure (xs ys : List ℚ) (nx ny nz d : ℚ) :
    ((meshgridX xs ys).zip (meshgridY xs ys)).map (fun XY =>
      (XY.1.zip XY.2).map (fun xy => (d - nx * xy.1 - ny * xy.2) / nz)) =
    ys.map (fun yv => xs.map (fun xv => (d - nx * xv - ny * yv) / nz)) := by
  unfold meshgridX meshgridY
  rw [List.zip_map', List.map_map]
  refine List.map_congr_left ?_
  intro yv _
  simp only [Function.comp]
  rw [zip_map_self, List.map_map]
  rfl

/-- The exact result of `plot_plane` on a 3-vector normal with no color
argument: construction of `PlaneColorPicker` initializes the shared index to
0 only when absent (hypothesis `hi` names the index it holds afterwards), the
singleton hands out the palette entry at that index and advances it, and the
surface is drawn over the meshgrid with `alpha = 0.2`. -/
lemma plot_plane_eq_three_none (normal : List ℚ) (d : ℚ) (xr yr : List ℚ)
    (st : PlotState) (i : ℕ) (h : normal.length = 3)
    (hi : pcp_construct 0 st.pcpInst = some i) :
    plot_plane normal d none xr yr st = { st with
      pcpInst := some ((i + 1) % PLANE_COLORS.length),
      axes := { st.axes with
        aspectEqual := true,
        children := st.axes.children ++
          [Artist.surface3D
            (meshgridX (linspace (xr.getD 0 0) (xr.getD 1 0) 100)
                       (linspace (yr.getD 0 0) (yr.getD 1 0) 100))
            (meshgridY (linspace (xr.getD 0 0) (xr.getD 1 0) 100)
                       (linspace (yr.getD 0 0) (yr.getD 1 0) 100))
            (((meshgridX (linspace (xr.getD 0 0) (xr.getD 1 0) 100)
                         (linspace (yr.getD 0 0) (yr.getD 1 0) 100)).zip
              (meshgridY (linspace (xr.getD 0 0) (xr.getD 1 0) 100)
                         (linspace (yr.getD 0 0) (yr.getD 1 0) 100))).map
              (fun XY => (XY.1.zip XY.2).map (fun xy =>
                (d - normal.getD 0 0 * xy.1 - normal.getD 1 0 * xy.2) /
                  normal.getD 2 0)))
            (PLANE_COLORS.getD i "") (1/5)] } } := by
  unfold plot_plane
  rw [if_pos h, hi]
  rfl

/-- C3: for every 3-vector normal with nonzero last component, `plot_plane`
with no explicit color draws one surface whose height over grid point
`(xv, yv)` is `(d - normal_x*xv - normal_y*yv)/normal_z`, over the meshgrid of
100-sample linspaces spanning `xrange`×`yrange`, with `alpha = 1/5`, taking
the next color from the shared cycler (index `i` after construction) and
advancing it; in particular `plot_plane((0,0,1), 5)` from a fresh state gives
the flat surface `z = 5` over the default `[-5,5]×[-5,5]` grid in the first
cycler color `"b"`. -/
theorem C3_plot_plane_surface :
    (∀ (normal : List ℚ) (d : ℚ) (xr yr : List ℚ) (st : PlotState) (i : ℕ),
      normal.length = 3 → normal.getD 2 0 ≠ 0 →
      pcp_construct 0 st.pcpInst = some i →
      plot_plane normal d none xr yr st = { st with
        pcpInst := some ((i + 1) % 6),
        axes := { st.axes with
          aspectEqual := true,
          children := st.axes.children ++
            [Artist.surface3D
              (meshgridX (linspace (xr.getD 0 0) (xr.getD 1 0) 100)
                         (linspace (yr.getD 0 0) (yr.getD 1 0) 100))
              (meshgridY (linspace (xr.getD 0 0) (xr.getD 1 0) 100)
                         (linspace (yr.getD 0 0) (yr.getD 1 0) 100))
              ((linspace (yr.getD 0 0) (yr.getD 1 0) 100).map (fun yv =>
                (linspace (xr.getD 0 0) (xr.getD 1 0) 100).map (fun xv =>
                  planeZ normal d xv yv)))
              (PLANE_COLORS.getD i "") (1/5)] } }) ∧
    (∀ a b : ℚ, (linspace a b 100).length = 100) ∧
    (∃ Z, (plot_plane [0, 0, 1] 5 none [-5, 5] [-5, 5] initState).axes.children =
        [Artist.surface3D
          (meshgridX (linspace (-5) 5 100) (linspace (-5) 5 100))
          (meshgridY (linspace (-5) 5 100) (linspace (-5) 5 100))
          Z "b" (1/5)] ∧
        Z.length = 100 ∧ ∀ row ∈ Z, row.length = 100 ∧ ∀ z ∈ row, z = 5) := by
  refine ⟨?_, by simp [linspace], ?_⟩
  · intro normal d xr yr st i hlen hz hi
    rw [plot_plane_eq_three_none normal d xr yr st i hlen hi,
      plot_plane_Z_structure]
    rfl
  · rw [plot_plane_eq_three_none [0, 0, 1] 5 [-5, 5] [-5, 5] initState 0
      (by decide) rfl]
    refine ⟨(linspace (-5) 5 100).map (fun yv =>
      (linspace (-5) 5 100).map (fun xv =>
        (5 - ([(0 : ℚ), 0, 1]).getD 0 0 * xv - ([(0 : ℚ), 0, 1]).getD 1 0 * yv) /
          ([(0 : ℚ), 0, 1]).getD 2 0)), ?_, by simp [linspace], ?_⟩
    · show [] ++ [Artist.surface3D _ _ _ _ _] = _
      rw [List.nil_append, plot_plane_Z_structure]
      rfl
    · intro row hrow
      rcases List.mem_map.mp hrow with ⟨yv, _, h1⟩
      rw [← h1]
      constructor
      · simp [linspace]
      · intro z hz
        rcases List.mem_map.mp hz with ⟨xv, _, h2⟩
        rw [← h2]
        simp

/-- Witness for C3's general part at `plot_plane((0,0,2), 4)` from a fresh
state. -/
theorem C3_plot_plane_surface_witness :
    plot_plane [0, 0, 2] 4 none [-5, 5] [-5, 5] initState = { initState with
      pcpInst := some ((0 + 1) % 6),
      axes := { initState.axes with
        aspectEqual := true,
        children := initState.axes.children ++
          [Artist.surface3D
            (meshgridX (linspace (([(-5 : ℚ), 5]).getD 0 0) (([(-5 : ℚ), 5]).getD 1 0) 100)
                       (linspace (([(-5 : ℚ), 5]).getD 0 0) (([(-5 : ℚ), 5]).getD 1 0) 100))
            (meshgridY (linspace (([(-5 : ℚ), 5]).getD 0 0) (([(-5 : ℚ), 5]).getD 1 0) 100)
                       (linspace (([(-5 : ℚ), 5]).getD 0 0) (([(-5 : ℚ), 5]).getD 1 0) 100))
            ((linspace (([(-5 : ℚ), 5]).getD 0 0) (([(-5 : ℚ), 5]).getD 1 0) 100).map (fun yv =>
              (linspace (([(-5 : ℚ), 5]).getD 0 0) (([(-5 : ℚ), 5]).getD 1 0) 100).map (fun xv =>
                planeZ [0, 0, 2] 4 xv yv)))
            (PLANE_COLORS.getD 0 "") (1/5)] } } :=
  C3_plot_plane_surface.1 [0, 0, 2] 4 [-5, 5] [-5, 5] initState 0
    (by decide) (by norm_num) rfl

/-- C5: the plane color cycler is a process-wide singleton over the 6-color
palette `[b, g, r, c, m, k]`: re-construction never resets the shared index,
`get_color` returns the current entry and advances the index by one modulo 6,
and two successive colorless `plot_plane` calls receive two distinct,
successive palette entries, the cycler advancing exactly once per call. -/
theorem C5_color_picker_singleton :
    (∀ start i, pcp_construct start (some i) = some i) ∧
    (∀ i, pcp_get_color i = (PLANE_COLORS.getD i "", (i + 1) % 6)) ∧
    (∀ (st : PlotState) (i : ℕ) (normal : List ℚ) (d : ℚ) (xr yr : List ℚ),
      st.pcpInst = some i → i < 6 → normal.length = 3 → normal.getD 2 0 ≠ 0 →
      ∃ st1 st2, plot_plane normal d none xr yr st = st1 ∧
        plot_plane normal d none xr yr st1 = st2 ∧
        ∃ a1 a2, st1.axes.children = st.axes.children ++ [a1] ∧
          st2.axes.children = st1.axes.children ++ [a2] ∧
          artistColor a1 = some (PLANE_COLORS.getD i "") ∧
          artistColor a2 = some (PLANE_COLORS.getD ((i + 1) % 6) "") ∧
          PLANE_COLORS.getD i "" ≠ PLANE_COLORS.getD ((i + 1) % 6) "" ∧
          st1.pcpInst = some ((i + 1) % 6) ∧
          st2.pcpInst = some ((i + 2) % 6)) := by
  refine ⟨fun start i => rfl, fun i => rfl, ?_⟩
  intro st i normal d xr yr hst hi6 hlen hz
  have hc1 : pcp_construct 0 st.pcpInst = some i := by rw [hst]; rfl
  refine ⟨_, _,
    plot_plane_eq_three_none normal d xr yr st i hlen hc1,
    plot_plane_eq_three_none normal d xr yr _ ((i + 1) % PLANE_COLORS.length)
      hlen rfl,
    _, _, rfl, rfl, rfl, rfl, ?_, rfl, ?_⟩
  · interval_cases i <;> decide
  · show some (((i + 1) % PLANE_COLORS.length + 1) % PLANE_COLORS.length) =
      some ((i + 2) % 6)
    have h6 : PLANE_COLORS.length = 6 := rfl
    rw [h6]
    exact congrArg some (by omega)

/-- Witness for C5's two-successive-calls part with the shared index at 4. -/
theorem C5_color_picker_singleton_witness :
    ∃ st1 st2,
      plot_plane [0, 0, 1] 5 none [-5, 5] [-5, 5] { initState with pcpInst := some 4 } = st1 ∧
      plot_plane [0, 0, 1] 5 none [-5, 5] [-5, 5] st1 = st2 ∧
      ∃ a1 a2,
        st1.axes.children = ({ initState with pcpInst := some 4 } : PlotState).axes.children ++ [a1] ∧
        st2.axes.children = st1.axes.children ++ [a2] ∧
        artistColor a1 = some (PLANE_COLORS.getD 4 "") ∧
        artistColor a2 = some (PLANE_COLORS.getD ((4 + 1) % 6) "") ∧
        PLANE_COLORS.getD 4 "" ≠ PLANE_COLORS.getD ((4 + 1) % 6) "" ∧
        st1.pcpInst = some ((4 + 1) % 6) ∧
        st2.pcpInst = some ((4 + 2) % 6) :=
  C5_color_picker_singleton.2.2 { initState with pcpInst := some 4 } 4
    [0, 0, 1] 5 [-5, 5] [-5, 5] rfl (by decide) (by decide) (by norm_num)
